import Mathlib

/-!
Shallow embedding of the HealthConnect backend server (src/server.js).

Each Express route handler is modelled as a pure Lean function over an
explicit database state (one Lean `List` per MongoDB collection), with
Boolean flags standing for the success or failure of the external effects
the handler performs (a MongoDB `findOne`/`insertOne`, a nodemailer
`sendMail`, the OpenAI chat-completion call).  A handler that can throw a
synchronous exception outside every try/catch (a body missing a field it
dereferences) returns `Option`, `none` meaning the exception crosses the
request boundary unhandled.
-/

namespace HealthConnect

/-- Character-list prefix test, the building block of the substring test. -/
def charsHasPre : List Char → List Char → Bool
  | [], _ => true
  | _ :: _, [] => false
  | c :: cs, d :: ds => c == d && charsHasPre cs ds

/-- Character-list substring test: does `key` occur contiguously in the list? -/
def charsHasSub (key : List Char) : List Char → Bool
  | [] => charsHasPre key []
  | d :: ds => charsHasPre key (d :: ds) || charsHasSub key ds

/-- JavaScript `s.includes(key)`: substring containment. -/
def strIncludes (s key : String) : Bool :=
  charsHasSub key.toList s.toList

/-- JavaScript `s.toLowerCase()` restricted to the ASCII range used here:
lowercase every character of the string. -/
def jsToLower (s : String) : String :=
  String.mk (s.toList.map Char.toLower)

/-- Canned response for the keyword "hello" (server.js line 66). -/
def helloResponse : String :=
  "Hello! Welcome to HealthConnect. How can I assist you today?"

/-- Canned response for the keyword "hi" (server.js line 67). -/
def hiResponse : String :=
  "Hi there! How can I help you?"

/-- Canned response for the keyword "workout splits" (server.js line 68). -/
def workoutSplitsResponse : String :=
  "Here are some popular workout splits:\n1. **Full Body (3 days/week)**: Work all major muscle groups in each session.\n2. **Upper/Lower (4 days/week)**: Alternate between upper and lower body workouts.\n3. **Push/Pull/Legs (6 days/week)**: Focus on pushing, pulling, and leg exercises.\nWhich one are you interested in?"

/-- Canned response for the keyword "diet plans" (server.js line 69). -/
def dietPlansResponse : String :=
  "Here are some diet plans based on your goal:\n1. **Weight Loss**: High-protein, low-carb, and calorie-deficit meals.\n2. **Muscle Gain**: High-protein, moderate-carb, and calorie-surplus meals.\n3. **Vegetarian**: Plant-based protein sources like beans, lentils, and tofu.\nWhat\x27s your goal?"

/-- Canned response for the keyword "fitness advice" (server.js line 70). -/
def fitnessAdviceResponse : String :=
  "Here are some general fitness tips:\n1. **Workout Frequency**: 3-5 times per week for optimal results.\n2. **Build Muscle**: Focus on progressive overload and proper nutrition.\n3. **Improve Cardio**: Incorporate HIIT or steady-state cardio into your routine.\nDo you have a specific question?"

/-- The value of the "default" key of the `responses` object (server.js line 71). -/
def defaultResponse : String :=
  "I\x27m sorry, I didn\x27t understand that. Can you please rephrase or ask something else?"

/-- The apology text substituted when the completion-API call fails (server.js line 114). -/
def apologyResponse : String :=
  "Sorry, I couldn\x27t fetch the information at the moment. Please try again later."

/-- The five keyword/response pairs of the `responses` object, in the
own-key insertion order of the object (server.js lines 66-70). -/
def keywordTable : List (String × String) :=
  [("hello", helloResponse),
   ("hi", hiResponse),
   ("workout splits", workoutSplitsResponse),
   ("diet plans", dietPlansResponse),
   ("fitness advice", fitnessAdviceResponse)]

/-- The full `responses` object as an ordered association list; the
"default" key is a real own key and is iterated last by `for ... in`
(server.js lines 65-72). -/
def responses : List (String × String) :=
  keywordTable ++ [("default", defaultResponse)]

/-- Outcome of the `fetchChatGPTResponse` call: returned text, or a thrown error. -/
inductive GptResult where
  | ok (text : String)
  | err
deriving DecidableEq

/-- A document of the `chatHistory` collection (server.js line 120). -/
structure ChatDoc where
  userMessage : String
  botResponse : String
  timestamp : Nat
deriving DecidableEq

/-- The observable outcome of one POST /chat request. -/
structure ChatResult where
  status : Nat
  message : String
  history : List ChatDoc
  gptInvoked : Bool
deriving DecidableEq

/-- The `for (const key in responses)` loop of server.js lines 98-106:
`botResponse` starts as `responses.default` and the first key that is a
substring of the lowercased message overwrites it. -/
def staticLookup (lower : String) : String :=
  match responses.find? (fun kv => strIncludes lower kv.1) with
  | some kv => kv.2
  | none => defaultResponse

/-- POST /chat (server.js lines 93-128).  `message` is `none` when the body
has no `message` field: then `req.body.message.toLowerCase()` throws outside
every try/catch and no response is produced.  `gpt` is the completion-API
outcome, `logOk` whether the `chatHistory` insert succeeds, `now` the
timestamp.  The completion API is invoked exactly when the loop left
`botResponse` equal to `responses.default` (line 109). -/
def chatHandler (message : Option String) (gpt : GptResult) (logOk : Bool)
    (now : Nat) (hist : List ChatDoc) : Option ChatResult :=
  match message with
  | none => none
  | some m =>
    let userMessage := jsToLower m
    let staticR := staticLookup userMessage
    let invoked := staticR == defaultResponse
    let botResponse :=
      if invoked then
        match gpt with
        | GptResult.ok t => t
        | GptResult.err => apologyResponse
      else staticR
    let hist2 := if logOk then hist ++ [⟨userMessage, botResponse, now⟩] else hist
    some ⟨200, botResponse, hist2, invoked⟩

/-- A document of the `subscriptions` collection (server.js line 142). -/
structure SubscriptionDoc where
  email : String
  createdAt : Nat
deriving DecidableEq

/-- The observable outcome of one POST /api/subscribe request. -/
structure SubscribeResult where
  status : Nat
  success : Bool
  message : String
  subs : List SubscriptionDoc
deriving DecidableEq

/-- Duplicate-subscription message (server.js line 138). -/
def alreadySubscribedMsg : String := "Email already subscribed."

/-- Subscription success message (server.js line 146). -/
def subscribeThanksMsg : String := "Thank you for subscribing!"

/-- Subscription storage-error message (server.js line 149). -/
def subscribeErrorMsg : String := "Something went wrong. Please try again."

/-- POST /api/subscribe (server.js lines 131-151): `findOne` on the email,
400 if present, otherwise `insertOne`; any storage failure is caught and
becomes a 500.  `findOk`/`insertOk` model the two storage operations. -/
def subscribeHandler (email : String) (findOk insertOk : Bool) (now : Nat)
    (subs : List SubscriptionDoc) : SubscribeResult :=
  if findOk = false then ⟨500, false, subscribeErrorMsg, subs⟩
  else if (subs.find? (fun d => d.email == email)).isSome then
    ⟨400, false, alreadySubscribedMsg, subs⟩
  else if insertOk = false then ⟨500, false, subscribeErrorMsg, subs⟩
  else ⟨201, true, subscribeThanksMsg, subs ++ [⟨email, now⟩]⟩

/-- One subscribe request in a sequential run: its email and effect outcomes. -/
structure SubscribeReq where
  email : String
  findOk : Bool
  insertOk : Bool
  now : Nat

/-- Sequential execution of a list of POST /api/subscribe requests. -/
def runSubscribes : List SubscribeReq → List SubscriptionDoc → List SubscriptionDoc
  | [], subs => subs
  | r :: rs, subs =>
    runSubscribes rs (subscribeHandler r.email r.findOk r.insertOk r.now subs).subs

/-- Diet-plan fragment for goal weight_loss, vegetarian (server.js lines 164-174). -/
def wlVegPlan : String := "
          <h2>Vegetarian Weight Loss Diet Plan</h2>
          <ul>
            <li><strong>7:00 AM - Breakfast:</strong> Oatmeal with fruits and a handful of nuts</li>
            <li><strong>10:00 AM - Snack:</strong> Greek yogurt with honey</li>
            <li><strong>1:00 PM - Lunch:</strong> Quinoa salad with mixed vegetables and a side of avocado</li>
            <li><strong>4:00 PM - Snack:</strong> A small apple or a handful of almonds</li>
            <li><strong>7:00 PM - Dinner:</strong> Steamed vegetables with tofu and a small portion of brown rice</li>
            <li><strong>9:00 PM - Snack (optional):</strong> A glass of warm skim milk</li>
          </ul>
        "

/-- Diet-plan fragment for goal weight_loss, non-vegetarian (server.js lines 176-186). -/
def wlNonVegPlan : String := "
          <h2>Non-Vegetarian Weight Loss Diet Plan</h2>
          <ul>
            <li><strong>7:00 AM - Breakfast:</strong> Scrambled eggs with spinach and whole-grain toast</li>
            <li><strong>10:00 AM - Snack:</strong> A boiled egg or a handful of nuts</li>
            <li><strong>1:00 PM - Lunch:</strong> Grilled chicken breast with a side of steamed broccoli and quinoa</li>
            <li><strong>4:00 PM - Snack:</strong> A small apple or a handful of almonds</li>
            <li><strong>7:00 PM - Dinner:</strong> Grilled fish with a side of roasted vegetables</li>
            <li><strong>9:00 PM - Snack (optional):</strong> A glass of warm skim milk</li>
          </ul>
        "

/-- Diet-plan fragment for goal muscle_gain, vegetarian (server.js lines 191-201). -/
def mgVegPlan : String := "
          <h2>Vegetarian Muscle Gain Diet Plan</h2>
          <ul>
            <li><strong>7:00 AM - Breakfast:</strong> Smoothie with banana, spinach, almond milk, and protein powder</li>
            <li><strong>10:00 AM - Snack:</strong> A handful of mixed nuts and a boiled egg</li>
            <li><strong>1:00 PM - Lunch:</strong> Lentil curry with brown rice and a side of avocado</li>
            <li><strong>4:00 PM - Snack:</strong> Greek yogurt with honey and a handful of granola</li>
            <li><strong>7:00 PM - Dinner:</strong> Grilled tofu with sweet potatoes and steamed vegetables</li>
            <li><strong>9:00 PM - Snack (optional):</strong> A glass of warm skim milk with a tablespoon of peanut butter</li>
          </ul>
        "

/-- Diet-plan fragment for goal muscle_gain, non-vegetarian (server.js lines 203-213). -/
def mgNonVegPlan : String := "
          <h2>Non-Vegetarian Muscle Gain Diet Plan</h2>
          <ul>
            <li><strong>7:00 AM - Breakfast:</strong> Scrambled eggs with whole-grain toast and a side of avocado</li>
            <li><strong>10:00 AM - Snack:</strong> A boiled egg or a handful of nuts</li>
            <li><strong>1:00 PM - Lunch:</strong> Grilled salmon with brown rice and a side of steamed vegetables</li>
            <li><strong>4:00 PM - Snack:</strong> Protein shake with banana and almond milk</li>
            <li><strong>7:00 PM - Dinner:</strong> Grilled chicken breast with sweet potatoes and roasted vegetables</li>
            <li><strong>9:00 PM - Snack (optional):</strong> A glass of warm skim milk with a tablespoon of peanut butter</li>
          </ul>
        "

/-- Diet-plan fragment for goal maintain_weight, vegetarian (server.js lines 218-228). -/
def mwVegPlan : String := "
          <h2>Vegetarian Maintain Weight Diet Plan</h2>
          <ul>
            <li><strong>7:00 AM - Breakfast:</strong> Smoothie with spinach, banana, and almond milk</li>
            <li><strong>10:00 AM - Snack:</strong> A handful of mixed nuts</li>
            <li><strong>1:00 PM - Lunch:</strong> Whole-grain pasta with pesto and a side of avocado</li>
            <li><strong>4:00 PM - Snack:</strong> Greek yogurt with honey</li>
            <li><strong>7:00 PM - Dinner:</strong> Grilled vegetables with quinoa and a side of hummus</li>
            <li><strong>9:00 PM - Snack (optional):</strong> A glass of warm skim milk</li>
          </ul>
        "

/-- Diet-plan fragment for goal maintain_weight, non-vegetarian (server.js lines 230-240). -/
def mwNonVegPlan : String := "
          <h2>Non-Vegetarian Maintain Weight Diet Plan</h2>
          <ul>
            <li><strong>7:00 AM - Breakfast:</strong> Scrambled eggs with whole-grain toast and a side of avocado</li>
            <li><strong>10:00 AM - Snack:</strong> A boiled egg or a handful of nuts</li>
            <li><strong>1:00 PM - Lunch:</strong> Grilled chicken sandwich with avocado and a side of mixed greens</li>
            <li><strong>4:00 PM - Snack:</strong> A small apple or a handful of almonds</li>
            <li><strong>7:00 PM - Dinner:</strong> Grilled fish with a side of roasted vegetables</li>
            <li><strong>9:00 PM - Snack (optional):</strong> A glass of warm skim milk</li>
          </ul>
        "

/-- Diet-plan fragment of the default case of the switch (server.js line 244). -/
def defaultPlan : String := "<p>No specific plan selected.</p>"

/-- The diet-plan switch of POST /send-diet-plan (server.js lines 160-245):
a pure mapping from (goal, dietPreference) to one HTML fragment; any
dietPreference other than "vegetarian" takes the else branch. -/
def generateDietPlan (goal dietPreference : String) : String :=
  if goal == "weight_loss" then
    if dietPreference == "vegetarian" then wlVegPlan else wlNonVegPlan
  else if goal == "muscle_gain" then
    if dietPreference == "vegetarian" then mgVegPlan else mgNonVegPlan
  else if goal == "maintain_weight" then
    if dietPreference == "vegetarian" then mwVegPlan else mwNonVegPlan
  else defaultPlan

/-- A document of the `dietPlans` collection (server.js line 249). -/
structure DietPlanDoc where
  name : String
  email : String
  goal : String
  height : String
  weight : String
  exerciseLevel : String
  dietPreference : String
  dietPlan : String
deriving DecidableEq

/-- A document of the `appointments` collection (server.js line 294). -/
structure AppointmentDoc where
  name : String
  email : String
  phone : String
  date : String
  time : String
deriving DecidableEq

/-- A document of the `users` collection (server.js line 341). -/
structure UserDoc where
  firstName : String
  lastName : String
  email : String
  phone : String
  password : String
  goals : List String
deriving DecidableEq

/-- The observable outcome of a handler that inserts a document and then
sends one email: HTTP status, `success` flag, response message, and whether
the email send was attempted at all. -/
structure EffectResult where
  status : Nat
  success : Bool
  message : String
  emailAttempted : Bool
deriving DecidableEq

/-- POST /send-diet-plan (server.js lines 154-284): generate the plan,
`insertOne` into `dietPlans` (500 and return on failure, before any email),
then `sendMail` (500 on failure, the insert is not rolled back). -/
def sendDietPlanHandler (name email goal height weight exerciseLevel dietPreference : String)
    (insertOk emailOk : Bool) (plans : List DietPlanDoc) :
    EffectResult × List DietPlanDoc :=
  let dp := generateDietPlan goal dietPreference
  if insertOk = false then (⟨500, false, "Failed to save diet plan", false⟩, plans)
  else
    let plans2 := plans ++ [⟨name, email, goal, height, weight, exerciseLevel, dietPreference, dp⟩]
    if emailOk = false then (⟨500, false, "Failed to send email", true⟩, plans2)
    else (⟨200, true, "Diet plan sent to your email!", true⟩, plans2)

/-- POST /book-appointment (server.js lines 287-327): `insertOne` into
`appointments` (500 and return on failure, before any email), then
`sendMail` (500 on failure, the insert is not rolled back). -/
def bookAppointmentHandler (name email phone date time : String)
    (insertOk emailOk : Bool) (appts : List AppointmentDoc) :
    EffectResult × List AppointmentDoc :=
  if insertOk = false then (⟨500, false, "Failed to save appointment", false⟩, appts)
  else
    let appts2 := appts ++ [⟨name, email, phone, date, time⟩]
    if emailOk = false then (⟨500, false, "Failed to book appointment", true⟩, appts2)
    else (⟨200, true, "Appointment booked successfully!", true⟩, appts2)

/-- POST /get-started (server.js lines 330-373).  `hash` abstracts
`bcrypt.hash` (parametrised: its contract is stated where needed).
`password` is `none` when the body has no `password` field: then
`bcrypt.hash(undefined, 10)` throws before the try block and no response is
produced.  On insert success the user document stores the hashed password;
an email failure returns 500 but the insert is not rolled back. -/
def getStartedHandler (hash : String → String)
    (firstName lastName email phone : String) (password : Option String)
    (goals : List String) (insertOk emailOk : Bool)
    (users : List UserDoc) : Option (EffectResult × List UserDoc) :=
  match password with
  | none => none
  | some pw =>
    let hashed := hash pw
    if insertOk = false then some (⟨500, false, "Failed to sign up", false⟩, users)
    else
      let users2 := users ++ [⟨firstName, lastName, email, phone, hashed, goals⟩]
      if emailOk = false then some (⟨500, false, "Failed to send welcome email", true⟩, users2)
      else some (⟨200, true, "Thank you for signing up!", true⟩, users2)

/-- The observable outcome of one POST /signin request; `user` carries the
stored document returned verbatim on success (server.js line 391). -/
structure SigninResult where
  status : Nat
  success : Bool
  message : String
  user : Option UserDoc
deriving DecidableEq

/-- POST /signin (server.js lines 376-404).  `cmp` abstracts
`bcrypt.compare` applied to the submitted plaintext and the stored hash.
`findOk` models the `findOne` call (its failure is caught and becomes 500). -/
def signinHandler (cmp : String → String → Bool) (email password : String)
    (findOk : Bool) (users : List UserDoc) : SigninResult :=
  if findOk = false then ⟨500, false, "Failed to sign in", none⟩
  else
    match users.find? (fun u => u.email == email) with
    | none => ⟨404, false, "User not found", none⟩
    | some user =>
      if cmp password user.password then ⟨200, true, "Sign-in successful!", some user⟩
      else ⟨401, false, "Invalid email or password", none⟩

/-! Helper lemmas about the keyword table and the static lookup. -/

/-- None of the five canned responses equals the default response. -/
lemma keyword_resp_ne_default : ∀ kv ∈ keywordTable, (kv.2 == defaultResponse) = false := by
  decide

/-- When a keyword of the five-entry table matches, the loop produces its response. -/
lemma staticLookup_of_match {lower : String} {kv : String × String}
    (h : keywordTable.find? (fun p => strIncludes lower p.1) = some kv) :
    staticLookup lower = kv.2 := by
  simp [staticLookup, responses, List.find?_append, h]

/-- When no keyword of the five-entry table matches, the loop leaves the
default response (whether or not the literal string "default" occurs in the
message, since the "default" key maps to the default response). -/
lemma staticLookup_of_nomatch {lower : String}
    (h : keywordTable.find? (fun p => strIncludes lower p.1) = none) :
    staticLookup lower = defaultResponse := by
  unfold staticLookup
  rw [show responses = keywordTable ++ [("default", defaultResponse)] from rfl,
    List.find?_append, h]
  cases hd : List.find? (fun p => strIncludes lower p.1) [("default", defaultResponse)] with
  | none => simp
  | some kv =>
    have hm := List.mem_of_find?_eq_some hd
    simp only [List.mem_singleton] at hm
    subst hm
    simp [hd]

/-- The completion API is invoked exactly when no keyword of the five-entry
table occurs as a substring of the lowercased message. -/
lemma invoked_iff (lower : String) :
    (staticLookup lower == defaultResponse) = true ↔
      ∀ kv ∈ keywordTable, strIncludes lower kv.1 = false := by
  constructor
  · intro h
    cases hf : keywordTable.find? (fun p => strIncludes lower p.1) with
    | none =>
      intro kv hkv
      have := List.find?_eq_none.mp hf kv hkv
      simpa using this
    | some kv =>
      have h1 := staticLookup_of_match hf
      have h2 := keyword_resp_ne_default kv (List.mem_of_find?_eq_some hf)
      rw [h1] at h
      rw [h] at h2
      cases h2
  · intro h
    have hf : keywordTable.find? (fun p => strIncludes lower p.1) = none :=
      List.find?_eq_none.mpr (fun kv hkv => by simp [h kv hkv])
    rw [staticLookup_of_nomatch hf]
    simp

/-- C2: Chat keyword matching is first-match over the fixed ordered table
(hello, hi, workout splits, diet plans, fitness advice): whenever the first
table keyword occurring as a substring of the lowercased message is `kv`,
the response is the canned response of `kv`; in particular the message
"hi there, tell me about diet plans" yields the response for "hi". -/
theorem chat_first_match :
    (∀ (m : String) (kv : String × String) (gpt : GptResult) (logOk : Bool)
        (now : Nat) (hist : List ChatDoc),
      keywordTable.find? (fun p => strIncludes (jsToLower m) p.1) = some kv →
      ∃ r, chatHandler (some m) gpt logOk now hist = some r ∧ r.message = kv.2) ∧
    (∀ (gpt : GptResult) (logOk : Bool) (now : Nat) (hist : List ChatDoc),
      ∃ r, chatHandler (some "hi there, tell me about diet plans") gpt logOk now hist = some r ∧
        r.message = hiResponse) := by
  have main : ∀ (m : String) (kv : String × String) (gpt : GptResult) (logOk : Bool)
      (now : Nat) (hist : List ChatDoc),
      keywordTable.find? (fun p => strIncludes (jsToLower m) p.1) = some kv →
      ∃ r, chatHandler (some m) gpt logOk now hist = some r ∧ r.message = kv.2 := by
    intro m kv gpt logOk now hist h
    have hs := staticLookup_of_match h
    have hne := keyword_resp_ne_default kv (List.mem_of_find?_eq_some h)
    refine ⟨_, rfl, ?_⟩
    simp [chatHandler, hs, hne]
  refine ⟨main, ?_⟩
  intro gpt logOk now hist
  have h : keywordTable.find?
      (fun p => strIncludes (jsToLower "hi there, tell me about diet plans") p.1) =
      some ("hi", hiResponse) := by decide
  exact main "hi there, tell me about diet plans" ("hi", hiResponse) gpt logOk now hist h

/-- C3: POST /chat invokes the completion API exactly when no table keyword
is a substring of the lowercased message; for "hello" it is not invoked and
the fixed hello string is returned; when invoked and the call fails, the
response message is the fixed apology string and the status is still 200. -/
theorem chat_gpt_exactly_on_nomatch :
    (∀ (gpt : GptResult) (logOk : Bool) (now : Nat) (hist : List ChatDoc),
      ∃ r, chatHandler (some "hello") gpt logOk now hist = some r ∧
        r.gptInvoked = false ∧ r.message = helloResponse) ∧
    (∀ (m : String) (gpt : GptResult) (logOk : Bool) (now : Nat) (hist : List ChatDoc)
        (r : ChatResult),
      chatHandler (some m) gpt logOk now hist = some r →
      (r.gptInvoked = true ↔ ∀ kv ∈ keywordTable, strIncludes (jsToLower m) kv.1 = false)) ∧
    (∀ (m : String) (logOk : Bool) (now : Nat) (hist : List ChatDoc) (r : ChatResult),
      chatHandler (some m) GptResult.err logOk now hist = some r →
      r.gptInvoked = true →
      r.message = apologyResponse ∧ r.status = 200) := by
  refine ⟨?_, ?_, ?_⟩
  · intro gpt logOk now hist
    have hs : staticLookup (jsToLower "hello") = helloResponse := by decide
    have hne : (helloResponse == defaultResponse) = false := by decide
    refine ⟨_, rfl, ?_⟩
    simp [chatHandler, hs, hne]
  · intro m gpt logOk now hist r h
    simp only [chatHandler, Option.some.injEq] at h
    subst h
    simpa using invoked_iff (jsToLower m)
  · intro m logOk now hist r h hinv
    simp only [chatHandler, Option.some.injEq] at h
    subst h
    simp only [ChatResult.gptInvoked] at hinv
    simp [hinv]

/-- C9: every POST /chat exchange with a working log writes exactly one
(userMessage, botResponse, timestamp) document holding the computed
response, and a failing log write changes neither the response message nor
the 200 status. -/
theorem chat_logs_after_response :
    (∀ (m : String) (gpt : GptResult) (now : Nat) (hist : List ChatDoc),
      ∃ r, chatHandler (some m) gpt true now hist = some r ∧
        r.history = hist ++ [⟨jsToLower m, r.message, now⟩]) ∧
    (∀ (m : String) (gpt : GptResult) (now : Nat) (hist : List ChatDoc) (r1 r2 : ChatResult),
      chatHandler (some m) gpt true now hist = some r1 →
      chatHandler (some m) gpt false now hist = some r2 →
      r1.message = r2.message ∧ r1.status = 200 ∧ r2.status = 200 ∧ r2.history = hist) := by
  constructor
  · intro m gpt now hist
    refine ⟨_, rfl, ?_⟩
    simp [chatHandler]
  · intro m gpt now hist r1 r2 h1 h2
    simp only [chatHandler, Option.some.injEq] at h1 h2
    subst h1
    subst h2
    simp

/-- C10: the chat-history document stores the lowercased message as
userMessage (never the original casing) and stores as botResponse exactly
the string returned in the response body. -/
theorem chat_persists_lowercased_message :
    ∀ (m : String) (gpt : GptResult) (now : Nat) (hist : List ChatDoc) (r : ChatResult),
      chatHandler (some m) gpt true now hist = some r →
      ∃ d, r.history = hist ++ [d] ∧ d.userMessage = jsToLower m ∧
        d.botResponse = r.message ∧ d.timestamp = now := by
  intro m gpt now hist r h
  refine ⟨⟨jsToLower m, r.message, now⟩, ?_, rfl, rfl, rfl⟩
  simp only [chatHandler, Option.some.injEq] at h
  subst h
  simp

/-- C7 counterexample: a POST /chat body with no `message` field makes
`req.body.message.toLowerCase()` throw outside every try/catch, so no HTTP
response is produced — the claim that every handler converts every failure
into an HTTP response for every possible body is false. -/
theorem chat_missing_message_throws :
    chatHandler none GptResult.err true 0 [] = none := rfl

/-- C7 amended: provided the fields a handler dereferences before its
try/catch are present (`message` for the chat body, `password` for the
get-started body), every handler converts any persistence, email, or upstream
failure into an HTTP response — POST /chat always answers 200 (apology text
rather than a 500), and every other handler answers one of its documented
status codes for every combination of effect outcomes. -/
theorem handlers_always_respond :
    (∀ (m : String) (gpt : GptResult) (logOk : Bool) (now : Nat) (hist : List ChatDoc),
      ∃ r, chatHandler (some m) gpt logOk now hist = some r ∧ r.status = 200) ∧
    (∀ (hash : String → String) (fn ln em ph pw : String) (gls : List String)
        (iOk eOk : Bool) (users : List UserDoc),
      ∃ out, getStartedHandler hash fn ln em ph (some pw) gls iOk eOk users = some out ∧
        (out.1.status = 200 ∨ out.1.status = 500)) ∧
    (∀ (e : String) (fOk iOk : Bool) (now : Nat) (subs : List SubscriptionDoc),
      (subscribeHandler e fOk iOk now subs).status = 201 ∨
      (subscribeHandler e fOk iOk now subs).status = 400 ∨
      (subscribeHandler e fOk iOk now subs).status = 500) ∧
    (∀ (n e g hgt w x d : String) (iOk eOk : Bool) (plans : List DietPlanDoc),
      (sendDietPlanHandler n e g hgt w x d iOk eOk plans).1.status = 200 ∨
      (sendDietPlanHandler n e g hgt w x d iOk eOk plans).1.status = 500) ∧
    (∀ (n e p d t : String) (iOk eOk : Bool) (appts : List AppointmentDoc),
      (bookAppointmentHandler n e p d t iOk eOk appts).1.status = 200 ∨
      (bookAppointmentHandler n e p d t iOk eOk appts).1.status = 500) ∧
    (∀ (cmp : String → String → Bool) (e p : String) (fOk : Bool) (users : List UserDoc),
      (signinHandler cmp e p fOk users).status = 200 ∨
      (signinHandler cmp e p fOk users).status = 401 ∨
      (signinHandler cmp e p fOk users).status = 404 ∨
      (signinHandler cmp e p fOk users).status = 500) := by
  refine ⟨?_, ?_, ?_, ?_, ?_, ?_⟩
  · intro m gpt logOk now hist
    exact ⟨_, rfl, rfl⟩
  · intro hash fn ln em ph pw gls iOk eOk users
    cases iOk <;> cases eOk <;> exact ⟨_, rfl, by simp [getStartedHandler]⟩
  · intro e fOk iOk now subs
    cases fOk
    · simp [subscribeHandler]
    · cases hs : (subs.find? (fun d => d.email == e)).isSome <;>
        cases iOk <;> simp [subscribeHandler, hs]
  · intro n e g hgt w x d iOk eOk plans
    cases iOk <;> cases eOk <;> simp [sendDietPlanHandler]
  · intro n e p d t iOk eOk appts
    cases iOk <;> cases eOk <;> simp [bookAppointmentHandler]
  · intro cmp e p fOk users
    cases fOk
    · simp [signinHandler]
    · simp only [signinHandler]
      cases hf : users.find? (fun u => u.email == e) with
      | none => simp
      | some u =>
        simp only []
        cases hc : cmp p u.password <;> simp [hc]

/-- C4: for POST /send-diet-plan and POST /book-appointment, persistence
comes first and is never rolled back: an insert failure yields 500 with the
email never attempted and the collection unchanged; an email failure after
a successful insert yields 500 but the collection has gained exactly the
one inserted document; 200 with success is returned exactly when both
succeed. -/
theorem persist_before_email :
    (∀ (n e g hgt w x d : String) (eOk : Bool) (plans : List DietPlanDoc),
      sendDietPlanHandler n e g hgt w x d false eOk plans =
        (⟨500, false, "Failed to save diet plan", false⟩, plans)) ∧
    (∀ (n e g hgt w x d : String) (plans : List DietPlanDoc),
      sendDietPlanHandler n e g hgt w x d true false plans =
        (⟨500, false, "Failed to send email", true⟩,
         plans ++ [⟨n, e, g, hgt, w, x, d, generateDietPlan g d⟩])) ∧
    (∀ (n e g hgt w x d : String) (iOk eOk : Bool) (plans : List DietPlanDoc),
      ((sendDietPlanHandler n e g hgt w x d iOk eOk plans).1.status = 200 ∧
       (sendDietPlanHandler n e g hgt w x d iOk eOk plans).1.success = true) ↔
      iOk = true ∧ eOk = true) ∧
    (∀ (n e p d t : String) (eOk : Bool) (appts : List AppointmentDoc),
      bookAppointmentHandler n e p d t false eOk appts =
        (⟨500, false, "Failed to save appointment", false⟩, appts)) ∧
    (∀ (n e p d t : String) (appts : List AppointmentDoc),
      bookAppointmentHandler n e p d t true false appts =
        (⟨500, false, "Failed to book appointment", true⟩, appts ++ [⟨n, e, p, d, t⟩])) ∧
    (∀ (n e p d t : String) (iOk eOk : Bool) (appts : List AppointmentDoc),
      ((bookAppointmentHandler n e p d t iOk eOk appts).1.status = 200 ∧
       (bookAppointmentHandler n e p d t iOk eOk appts).1.success = true) ↔
      iOk = true ∧ eOk = true) := by
  refine ⟨?_, ?_, ?_, ?_, ?_, ?_⟩
  · intro n e g hgt w x d eOk plans
    simp [sendDietPlanHandler]
  · intro n e g hgt w x d plans
    simp [sendDietPlanHandler]
  · intro n e g hgt w x d iOk eOk plans
    cases iOk <;> cases eOk <;> simp [sendDietPlanHandler]
  · intro n e p d t eOk appts
    simp [bookAppointmentHandler]
  · intro n e p d t appts
    simp [bookAppointmentHandler]
  · intro n e p d t iOk eOk appts
    cases iOk <;> cases eOk <;> simp [bookAppointmentHandler]

/-- One POST /api/subscribe call preserves distinctness of the stored
subscription emails: the only insert happens after the pre-insert lookup
found no document with that email. -/
lemma subscribe_preserves_nodup (e : String) (fOk iOk : Bool) (now : Nat)
    (subs : List SubscriptionDoc)
    (h : (subs.map SubscriptionDoc.email).Nodup) :
    ((subscribeHandler e fOk iOk now subs).subs.map SubscriptionDoc.email).Nodup := by
  cases fOk
  · simpa [subscribeHandler] using h
  · cases hs : (subs.find? (fun d => d.email == e)).isSome
    · cases iOk
      · simpa [subscribeHandler, hs] using h
      · have hnone : subs.find? (fun d => d.email == e) = none :=
          Option.not_isSome_iff_eq_none.mp (by simp [hs])
        have hmem : e ∉ subs.map SubscriptionDoc.email := by
          intro hmm
          obtain ⟨d, hd, hde⟩ := List.mem_map.mp hmm
          have := List.find?_eq_none.mp hnone d hd
          simp [hde] at this
        have hsubs : (subscribeHandler e true true now subs).subs =
            subs ++ [(⟨e, now⟩ : SubscriptionDoc)] := by
          simp [subscribeHandler, hs]
        rw [hsubs, List.map_append, List.nodup_append]
        refine ⟨h, by simp, ?_⟩
        intro a ha hae
        simp only [List.map_cons, List.map_nil, List.mem_singleton] at hae
        subst hae
        exact hmem ha
    · simpa [subscribeHandler, hs] using h

/-- C5: duplicate subscription is rejected before writing: for a fresh
email the first call returns 201 and appends exactly one document, the
second call returns 400 and appends nothing, and sequential execution of
any list of subscribe requests preserves distinctness of subscription
emails. -/
theorem subscribe_dedup :
    (∀ (e : String) (now now2 : Nat) (iOk2 : Bool) (subs : List SubscriptionDoc),
      subs.find? (fun d => d.email == e) = none →
      subscribeHandler e true true now subs =
        ⟨201, true, subscribeThanksMsg, subs ++ [(⟨e, now⟩ : SubscriptionDoc)]⟩ ∧
      subscribeHandler e true iOk2 now2 (subs ++ [(⟨e, now⟩ : SubscriptionDoc)]) =
        ⟨400, false, alreadySubscribedMsg, subs ++ [(⟨e, now⟩ : SubscriptionDoc)]⟩ ∧
      (subs ++ [(⟨e, now⟩ : SubscriptionDoc)]).length = subs.length + 1) ∧
    (∀ (reqs : List SubscribeReq) (subs : List SubscriptionDoc),
      (subs.map SubscriptionDoc.email).Nodup →
      ((runSubscribes reqs subs).map SubscriptionDoc.email).Nodup) := by
  constructor
  · intro e now now2 iOk2 subs hfind
    refine ⟨by simp [subscribeHandler, hfind], ?_, by simp⟩
    have h2 : ((subs ++ [(⟨e, now⟩ : SubscriptionDoc)]).find?
        (fun d => d.email == e)).isSome = true := by
      simp [List.find?_append, hfind]
    simp [subscribeHandler, h2]
  · intro reqs
    induction reqs with
    | nil => intro subs h; simpa [runSubscribes] using h
    | cons r rs ih =>
      intro subs h
      exact ih _ (subscribe_preserves_nodup r.email r.findOk r.insertOk r.now subs h)

/-- C6: on successful sign-in the 200 response carries the stored user
document unmodified, hashed password field included. -/
theorem signin_returns_stored_record :
    ∀ (cmp : String → String → Bool) (email pw : String) (users : List UserDoc) (u : UserDoc),
      users.find? (fun x => x.email == email) = some u →
      cmp pw u.password = true →
      signinHandler cmp email pw true users = ⟨200, true, "Sign-in successful!", some u⟩ := by
  intro cmp email pw users u hfind hcmp
  simp [signinHandler, hfind, hcmp]

/-- C8: the diet-plan generator is a pure total function of
(goal, dietPreference): the six recognised combinations give pairwise
distinct non-empty HTML fragments, every unrecognised goal gives the fixed
default fragment regardless of dietPreference, and every dietPreference
other than "vegetarian" behaves like "other". -/
theorem diet_plan_generator_total :
    [generateDietPlan "weight_loss" "vegetarian", generateDietPlan "weight_loss" "other",
     generateDietPlan "muscle_gain" "vegetarian", generateDietPlan "muscle_gain" "other",
     generateDietPlan "maintain_weight" "vegetarian",
     generateDietPlan "maintain_weight" "other"].Nodup ∧
    (∀ s ∈ [generateDietPlan "weight_loss" "vegetarian", generateDietPlan "weight_loss" "other",
       generateDietPlan "muscle_gain" "vegetarian", generateDietPlan "muscle_gain" "other",
       generateDietPlan "maintain_weight" "vegetarian",
       generateDietPlan "maintain_weight" "other"], s ≠ "") ∧
    (∀ g : String, g ∉ ["weight_loss", "muscle_gain", "maintain_weight"] →
      ∀ dp : String, generateDietPlan g dp = defaultPlan) ∧
    (∀ (g dp : String), dp ≠ "vegetarian" →
      generateDietPlan g dp = generateDietPlan g "other") := by
  refine ⟨by decide, by decide, ?_, ?_⟩
  · intro g hg dp
    simp only [List.mem_cons, List.not_mem_nil, or_false, not_or] at hg
    obtain ⟨h1, h2, h3⟩ := hg
    simp [generateDietPlan, h1, h2, h3]
  · intro g dp hdp
    have hv : (dp == "vegetarian") = false := by simp [hdp]
    have ho : (("other" : String) == "vegetarian") = false := by decide
    simp [generateDietPlan, hv, ho]

/-- C1: sign-up/sign-in round-trip.  `hash`/`cmp` abstract `bcrypt.hash` and
`bcrypt.compare`; the hypothesis `hbc` is the contract of bcrypt (comparing a
plaintext against a hash succeeds exactly for the hashed plaintext), and the
whole statement is parametric in `cmp`, so sign-in decides only through the
comparison primitive applied to the stored hash, never through plaintext
equality.  Starting from a users collection with no document for the email:
a successful POST /get-started stores `hash pw` as the password, then
POST /signin with the same credentials returns 200 with success, a
different password returns 401, and an email with no user document returns
404. -/
theorem signup_signin_roundtrip
    (hash : String → String) (cmp : String → String → Bool)
    (hbc : ∀ p q, cmp p (hash q) = (p == q))
    (firstName lastName email phone pw : String) (goals : List String)
    (users : List UserDoc)
    (hfresh : ∀ u ∈ users, (u.email == email) = false) :
    getStartedHandler hash firstName lastName email phone (some pw) goals true true users =
      some (⟨200, true, "Thank you for signing up!", true⟩,
            users ++ [(⟨firstName, lastName, email, phone, hash pw, goals⟩ : UserDoc)]) ∧
    signinHandler cmp email pw true
        (users ++ [(⟨firstName, lastName, email, phone, hash pw, goals⟩ : UserDoc)]) =
      ⟨200, true, "Sign-in successful!",
       some ⟨firstName, lastName, email, phone, hash pw, goals⟩⟩ ∧
    (∀ pw2, pw2 ≠ pw →
      (signinHandler cmp email pw2 true
        (users ++ [(⟨firstName, lastName, email, phone, hash pw, goals⟩ : UserDoc)])).status
        = 401) ∧
    (∀ email2,
      (∀ u ∈ users ++ [(⟨firstName, lastName, email, phone, hash pw, goals⟩ : UserDoc)],
        (u.email == email2) = false) →
      (signinHandler cmp email2 pw true
        (users ++ [(⟨firstName, lastName, email, phone, hash pw, goals⟩ : UserDoc)])).status
        = 404) := by
  have hnone : users.find? (fun u => u.email == email) = none :=
    List.find?_eq_none.mpr (fun u hu => by simp [hfresh u hu])
  have hfind : (users ++ [(⟨firstName, lastName, email, phone, hash pw, goals⟩ : UserDoc)]).find?
      (fun u => u.email == email) =
      some ⟨firstName, lastName, email, phone, hash pw, goals⟩ := by
    simp [List.find?_append, hnone]
  refine ⟨by simp [getStartedHandler], ?_, ?_, ?_⟩
  · simp [signinHandler, hfind, hbc]
  · intro pw2 hne
    have : (pw2 == pw) = false := by simp [hne]
    simp [signinHandler, hfind, hbc, this]
  · intro email2 hmiss
    have hnone2 : (users ++ [(⟨firstName, lastName, email, phone, hash pw, goals⟩ : UserDoc)]).find?
        (fun u => u.email == email2) = none :=
      List.find?_eq_none.mpr (fun u hu => by simp [hmiss u hu])
    simp [signinHandler, hnone2]

/-- Witness for C1 at concrete inputs, with the identity taken for the hash
and hash equality for the comparison, starting from an empty users
collection. -/
theorem signup_signin_roundtrip_witness :
    (∀ p q : String, (p == q) = (p == q)) ∧
    (∀ u ∈ ([] : List UserDoc), (u.email == "a@b.c") = false) ∧
    getStartedHandler (fun p => p) "Ann" "Lee" "a@b.c" "555" (some "secret123") [] true true [] =
      some (⟨200, true, "Thank you for signing up!", true⟩,
            [(⟨"Ann", "Lee", "a@b.c", "555", "secret123", []⟩ : UserDoc)]) ∧
    signinHandler (fun p h => p == h) "a@b.c" "secret123" true
        [(⟨"Ann", "Lee", "a@b.c", "555", "secret123", []⟩ : UserDoc)] =
      ⟨200, true, "Sign-in successful!", some ⟨"Ann", "Lee", "a@b.c", "555", "secret123", []⟩⟩ := by
  have h := signup_signin_roundtrip (fun p => p) (fun p h => p == h) (fun _ _ => rfl)
    "Ann" "Lee" "a@b.c" "555" "secret123" [] [] (by simp)
  exact ⟨fun _ _ => rfl, by simp, h.1, h.2.1⟩

/-- Witness for C2: in "hi there, tell me about diet plans" the first
matching table keyword is "hi". -/
theorem chat_first_match_witness :
    keywordTable.find?
        (fun p => strIncludes (jsToLower "hi there, tell me about diet plans") p.1) =
      some ("hi", hiResponse) ∧
    (∃ r, chatHandler (some "hi there, tell me about diet plans") GptResult.err true 0 [] =
      some r ∧ r.message = ("hi", hiResponse).2) :=
  ⟨by decide, chat_first_match.1 "hi there, tell me about diet plans" ("hi", hiResponse)
    GptResult.err true 0 [] (by decide)⟩

/-- Witness for C3: "tell me about protein timing" matches no keyword, the
completion call fails, and the response is the apology with status 200. -/
theorem chat_gpt_exactly_on_nomatch_witness :
    chatHandler (some "tell me about protein timing") GptResult.err true 0 [] =
      some ⟨200, apologyResponse,
        [⟨"tell me about protein timing", apologyResponse, 0⟩], true⟩ ∧
    (⟨200, apologyResponse, [⟨"tell me about protein timing", apologyResponse, 0⟩],
      true⟩ : ChatResult).gptInvoked = true ∧
    (⟨200, apologyResponse, [⟨"tell me about protein timing", apologyResponse, 0⟩],
      true⟩ : ChatResult).message = apologyResponse ∧
    (⟨200, apologyResponse, [⟨"tell me about protein timing", apologyResponse, 0⟩],
      true⟩ : ChatResult).status = 200 := by
  have heq : chatHandler (some "tell me about protein timing") GptResult.err true 0 [] =
      some ⟨200, apologyResponse,
        [⟨"tell me about protein timing", apologyResponse, 0⟩], true⟩ := by decide
  have h := chat_gpt_exactly_on_nomatch.2.2 "tell me about protein timing" true 0 []
    ⟨200, apologyResponse, [⟨"tell me about protein timing", apologyResponse, 0⟩], true⟩
    heq rfl
  exact ⟨heq, rfl, h.1, h.2⟩

/-- Witness for C5 at a concrete email and an empty collection: 201 then
400, one document gained, distinct emails preserved over the run. -/
theorem subscribe_dedup_witness :
    (([] : List SubscriptionDoc).find? (fun d => d.email == "x@y.z") = none) ∧
    ((([] : List SubscriptionDoc).map SubscriptionDoc.email).Nodup) ∧
    subscribeHandler "x@y.z" true true 0 [] =
      ⟨201, true, subscribeThanksMsg, [(⟨"x@y.z", 0⟩ : SubscriptionDoc)]⟩ ∧
    subscribeHandler "x@y.z" true true 1 [(⟨"x@y.z", 0⟩ : SubscriptionDoc)] =
      ⟨400, false, alreadySubscribedMsg, [(⟨"x@y.z", 0⟩ : SubscriptionDoc)]⟩ ∧
    ((runSubscribes [⟨"x@y.z", true, true, 0⟩, ⟨"x@y.z", true, true, 1⟩] []).map
        SubscriptionDoc.email).Nodup := by
  have h := subscribe_dedup.1 "x@y.z" 0 1 true [] rfl
  have h2 := subscribe_dedup.2 [⟨"x@y.z", true, true, 0⟩, ⟨"x@y.z", true, true, 1⟩] []
    (by simp)
  exact ⟨rfl, by simp, h.1, h.2.1, h2⟩

/-- Witness for C6 at a concrete stored user whose comparison succeeds. -/
theorem signin_returns_stored_record_witness :
    ([(⟨"A", "B", "a@b.c", "1", "hpw", []⟩ : UserDoc)].find? (fun x => x.email == "a@b.c") =
      some ⟨"A", "B", "a@b.c", "1", "hpw", []⟩) ∧
    ((fun _ h => h == "hpw") "pw" "hpw" : Bool) = true ∧
    signinHandler (fun _ h => h == "hpw") "a@b.c" "pw" true
        [(⟨"A", "B", "a@b.c", "1", "hpw", []⟩ : UserDoc)] =
      ⟨200, true, "Sign-in successful!", some ⟨"A", "B", "a@b.c", "1", "hpw", []⟩⟩ := by
  refine ⟨rfl, rfl, ?_⟩
  exact signin_returns_stored_record (fun _ h => h == "hpw") "a@b.c" "pw"
    [⟨"A", "B", "a@b.c", "1", "hpw", []⟩] ⟨"A", "B", "a@b.c", "1", "hpw", []⟩ rfl rfl

/-- Witness for C8 at an unrecognised goal and a non-vegetarian preference. -/
theorem diet_plan_generator_total_witness :
    (("keto" : String) ∉ ["weight_loss", "muscle_gain", "maintain_weight"]) ∧
    generateDietPlan "keto" "vegetarian" = defaultPlan ∧
    (("nonveg" : String) ≠ "vegetarian") ∧
    generateDietPlan "weight_loss" "nonveg" = generateDietPlan "weight_loss" "other" := by
  refine ⟨by decide, ?_, by decide, ?_⟩
  · exact diet_plan_generator_total.2.2.1 "keto" (by decide) "vegetarian"
  · exact diet_plan_generator_total.2.2.2 "weight_loss" "nonveg" (by decide)

/-- Witness for C9: the "Hello" exchange is logged lowercased with the
computed response, and a failing log write leaves the same 200 response. -/
theorem chat_logs_after_response_witness :
    chatHandler (some "Hello") GptResult.err true 0 [] =
      some ⟨200, helloResponse, [⟨"hello", helloResponse, 0⟩], false⟩ ∧
    chatHandler (some "Hello") GptResult.err false 0 [] =
      some ⟨200, helloResponse, [], false⟩ ∧
    ((⟨200, helloResponse, [⟨"hello", helloResponse, 0⟩], false⟩ : ChatResult).message =
       (⟨200, helloResponse, [], false⟩ : ChatResult).message ∧
     (⟨200, helloResponse, [⟨"hello", helloResponse, 0⟩], false⟩ : ChatResult).status = 200 ∧
     (⟨200, helloResponse, [], false⟩ : ChatResult).status = 200 ∧
     (⟨200, helloResponse, [], false⟩ : ChatResult).history = []) := by
  have h1 : chatHandler (some "Hello") GptResult.err true 0 [] =
      some ⟨200, helloResponse, [⟨"hello", helloResponse, 0⟩], false⟩ := by decide
  have h2 : chatHandler (some "Hello") GptResult.err false 0 [] =
      some ⟨200, helloResponse, [], false⟩ := by decide
  exact ⟨h1, h2, chat_logs_after_response.2 "Hello" GptResult.err 0 [] _ _ h1 h2⟩

/-- Witness for C10: the logged document for "HELLO" stores the lowercased
message and the returned response text. -/
theorem chat_persists_lowercased_message_witness :
    chatHandler (some "HELLO") GptResult.err true 0 [] =
      some ⟨200, helloResponse, [⟨"hello", helloResponse, 0⟩], false⟩ ∧
    (∃ d, (⟨200, helloResponse, [⟨"hello", helloResponse, 0⟩], false⟩ : ChatResult).history =
        [] ++ [d] ∧
      d.userMessage = jsToLower "HELLO" ∧
      d.botResponse =
        (⟨200, helloResponse, [⟨"hello", helloResponse, 0⟩], false⟩ : ChatResult).message ∧
      d.timestamp = 0) := by
  have h1 : chatHandler (some "HELLO") GptResult.err true 0 [] =
      some ⟨200, helloResponse, [⟨"hello", helloResponse, 0⟩], false⟩ := by decide
  exact ⟨h1, chat_persists_lowercased_message "HELLO" GptResult.err 0 [] _ h1⟩

end HealthConnect
